import Mathlib

/-!
Verification development for the PoritzCraft frame rendering engine
(src/renderer.rs, `PoritzCraftRenderer`).

The renderer is shallowly embedded as a pure state machine.  The parts of
the world the renderer cannot control — the window extent reported by the
windowing system and the outcomes of the presentation backend's
swapchain-recreate, image-acquire and submit-and-flush operations — are
supplied per call as an `Env` oracle record.  Floating point data that the
claims only inspect structurally (matrix operands, rotation angles, buffer
element values) is modelled over `ℚ`; matrices themselves are kept as a
symbolic expression tree mirroring the exact `cgmath` constructor calls
the source makes.
-/

namespace PoritzCraft

/-! ### Geometry tables (from `PoritzCraftRenderer::new`, src/renderer.rs) -/

/-- The half-edge length constant `SIZE` (src/main.rs line 59, re-used by
the renderer via `crate::utils`). -/
def SIZE : ℚ := 10

/-- Mirrors `repeat_element` (src/main.rs lines 65-67): every element of
the input is repeated `cnt` times in place. -/
def repeat_element {α : Type} (l : List α) (cnt : Nat) : List α :=
  l.flatMap fun n => List.replicate cnt n

/-- The eight cube corner positions (renderer.rs lines 163-193, before the
threefold repetition). -/
def cubeCorners : List (ℚ × ℚ × ℚ) :=
  [(-SIZE, -SIZE, -SIZE), (SIZE, -SIZE, -SIZE), (SIZE, SIZE, -SIZE), (-SIZE, SIZE, -SIZE),
   (-SIZE, -SIZE, SIZE), (SIZE, -SIZE, SIZE), (SIZE, SIZE, SIZE), (-SIZE, SIZE, SIZE)]

/-- The vertex buffer contents: every corner repeated three times, one copy
per adjacent face normal (renderer.rs lines 163-193). -/
def vertices : List (ℚ × ℚ × ℚ) := repeat_element cubeCorners 3

def N_TOP : ℚ × ℚ × ℚ := (0, -SIZE, 0)
def N_BOTTOM : ℚ × ℚ × ℚ := (0, SIZE, 0)
def N_LEFT : ℚ × ℚ × ℚ := (-SIZE, 0, 0)
def N_RIGHT : ℚ × ℚ × ℚ := (SIZE, 0, 0)
def N_FRONT : ℚ × ℚ × ℚ := (0, 0, -SIZE)
def N_BACK : ℚ × ℚ × ℚ := (0, 0, SIZE)

/-- The normal buffer contents (renderer.rs lines 214-219). -/
def normals : List (ℚ × ℚ × ℚ) :=
  [N_LEFT, N_TOP, N_FRONT, N_RIGHT, N_TOP, N_FRONT, N_RIGHT, N_BOTTOM, N_FRONT,
   N_LEFT, N_BOTTOM, N_FRONT,
   N_LEFT, N_TOP, N_BACK, N_RIGHT, N_TOP, N_BACK, N_RIGHT, N_BOTTOM, N_BACK,
   N_LEFT, N_BOTTOM, N_BACK]

/-- The texture coordinate buffer contents (renderer.rs lines 222-304). -/
def texture_coordinates : List (ℚ × ℚ) :=
  [(1, 0), (0, 0), (0, 0),
   (0, 0), (0, 0), (1, 0),
   (0, 1), (1, 0), (1, 1),
   (1, 1), (0, 0), (0, 1),
   (0, 0), (0, 0), (1, 0),
   (1, 0), (0, 0), (0, 0),
   (1, 1), (0, 0), (0, 1),
   (0, 1), (1, 0), (1, 1)]

/-- The index buffer contents of the grid-instanced renderer
(renderer.rs lines 306-343); the back, right and bottom faces are
commented out in the source. -/
def indices : List Nat :=
  [2, 3 + 2, 2 * 3 + 2, 2 * 3 + 2, 3 * 3 + 2, 2,
   0, 3 * 3, 7 * 3, 0, 4 * 3, 7 * 3,
   1, 3 + 1, 4 * 3 + 1, 3 + 1, 4 * 3 + 1, 5 * 3 + 1]

/-- The full 36-entry cube index table of the single-instance variant
(src/main.rs lines 173-210): front, back, left, right, top, bottom. -/
def indices_main : List Nat :=
  [0 * 3 + 2, 1 * 3 + 2, 2 * 3 + 2, 2 * 3 + 2, 3 * 3 + 2, 0 * 3 + 2,
   4 * 3 + 2, 5 * 3 + 2, 6 * 3 + 2, 6 * 3 + 2, 7 * 3 + 2, 4 * 3 + 2,
   0 * 3, 3 * 3, 7 * 3, 0 * 3, 4 * 3, 7 * 3,
   1 * 3, 2 * 3, 5 * 3, 2 * 3, 5 * 3, 6 * 3,
   0 * 3 + 1, 1 * 3 + 1, 4 * 3 + 1, 1 * 3 + 1, 4 * 3 + 1, 5 * 3 + 1,
   2 * 3 + 1, 6 * 3 + 1, 7 * 3 + 1, 2 * 3 + 1, 3 * 3 + 1, 7 * 3 + 1]

/-- The per-instance offset buffer contents: a 100 by 1 by 100 grid with
spacing 20 (renderer.rs lines 368-380). -/
def instances : List (ℚ × ℚ × ℚ) :=
  (List.range 100).flatMap fun x =>
    (List.range 1).flatMap fun y =>
      (List.range 100).map fun z =>
        ((x : ℚ) * 20, (y : ℚ) * 20, (z : ℚ) * 20)

/-! ### Extents, pipeline and framebuffer setup -/

/-- A two-dimensional pixel extent. -/
structure Extent where
  width : Nat
  height : Nat
deriving DecidableEq, Repr

/-- The swapchain images handed back by a successful swapchain build: the
image count and the common extent of all color images. -/
structure SwapchainImages where
  count : Nat
  extent : Extent
deriving DecidableEq, Repr

/-- A compiled graphics pipeline, reduced to the datum the claims inspect:
the fixed viewport extent it was built for (renderer.rs lines 674-695). -/
structure PipelineObject where
  viewport : Extent
deriving DecidableEq, Repr

/-- The framebuffer set produced from a list of swapchain images: one
framebuffer per color image, all sharing a single depth attachment
(renderer.rs lines 650-668). -/
structure FramebufferSet where
  count : Nat
  colorExtent : Extent
  depthExtent : Extent
deriving DecidableEq, Repr

/-- Mirrors `window_size_dependent_setup` (renderer.rs lines 641-698):
takes the dimensions of the first image, builds one shared depth buffer of
those dimensions, one framebuffer per image, and a pipeline whose viewport
is fixed to those dimensions. -/
def window_size_dependent_setup (images : SwapchainImages) :
    PipelineObject × FramebufferSet :=
  let dimensions := images.extent
  (⟨dimensions⟩, ⟨images.count, dimensions, dimensions⟩)

/-! ### Completion signals and backend outcomes -/

/-- A `GpuFuture` completion signal as chained by the renderer:
`tex_upload` is the texture-upload future stored at construction
(renderer.rs line 475), `now` is `sync::now(device)` (a
trivially-already-complete signal), and `fenced prev i` is the
fence-and-flush signal of a frame submitted on top of `prev` presenting
image `i` (renderer.rs lines 614-622). -/
inductive Signal
  | tex_upload
  | now
  | fenced (prev : Signal) (imageNum : Nat)
deriving DecidableEq, Repr

/-- Outcome of `Swapchain::recreate` as matched by the source
(renderer.rs lines 484-491). -/
inductive RecreateResult
  | ok (imageCount : Nat)
  | imageExtentNotSupported
  | otherError
deriving DecidableEq, Repr

/-- Outcome of `acquire_next_image` as matched by the source
(renderer.rs lines 506-514). -/
inductive AcquireResult
  | ok (imageNum : Nat) (suboptimal : Bool)
  | outOfDate
  | otherError
deriving DecidableEq, Repr

/-- Outcome of `then_signal_fence_and_flush` as matched by the source
(renderer.rs lines 624-636). -/
inductive FlushResult
  | ok
  | outOfDate
  | otherError
deriving DecidableEq, Repr

/-- The per-call oracle: everything the backend and windowing system
report during one `render` call. -/
structure Env where
  windowExtent : Extent
  recreate : RecreateResult
  acquire : AcquireResult
  flush : FlushResult
  elapsedNanos : Nat
deriving DecidableEq, Repr

/-- Environment assumption taken from the presentation backend's contract
(spec section 4.2): a window extent that is zero in either dimension is an
unsupported swapchain extent, so `Swapchain::recreate` rejects it with
`ImageExtentNotSupported` rather than building a zero-area surface. -/
def EnvWf (env : Env) : Prop :=
  env.windowExtent.width = 0 ∨ env.windowExtent.height = 0 →
    env.recreate = RecreateResult.imageExtentNotSupported

instance (env : Env) : Decidable (EnvWf env) := by
  unfold EnvWf
  infer_instance

/-! ### Uniform data (renderer.rs lines 520-546) -/

/-- A symbolic 4x4 matrix expression mirroring the exact `cgmath`
constructor calls made by the renderer.  `perspective` records the
vertical field of view as a multiple of pi (the source passes
`FRAC_PI_2`, i.e. one half), the aspect ratio, and the near and far
planes. -/
inductive MatExpr
  | from_angle_y (angle : ℚ)
  | look_at_rh (eye center up : ℚ × ℚ × ℚ)
  | from_scale (c : ℚ)
  | mul (a b : MatExpr)
  | perspective (fovyPiMul aspect near far : ℚ)
deriving DecidableEq, Repr

/-- The per-frame uniform record `vs::ty::Data` (renderer.rs lines
539-543). -/
structure UniformData where
  world : MatExpr
  view : MatExpr
  proj : MatExpr
deriving DecidableEq, Repr

/-- The rotation angle in radians computed from the elapsed duration:
`elapsed.as_secs() + elapsed.subsec_nanos() / 1e9` (renderer.rs lines
521-523), with the duration given in nanoseconds. -/
def rotation_angle (elapsedNanos : Nat) : ℚ :=
  ((elapsedNanos / 1000000000 : Nat) : ℚ) +
    ((elapsedNanos % 1000000000 : Nat) : ℚ) / 1000000000

/-- The fixed view transform: `look_at_rh((0.3,0.3,1), origin, (0,-1,0))`
composed with `from_scale(0.01)` (renderer.rs lines 532-537, 541). -/
def view_matrix : MatExpr :=
  MatExpr.mul
    (MatExpr.look_at_rh (3 / 10, 3 / 10, 1) (0, 0, 0) (0, -1, 0))
    (MatExpr.from_scale (1 / 100))

/-- Mirrors the uniform computation block (renderer.rs lines 520-546):
world is a rotation about the y axis by the elapsed seconds, view is the
fixed look-at-and-scale transform, and proj is a perspective matrix with
vertical field of view pi/2, the current extent's width over height as
aspect ratio, near plane 0.01 and far plane 100. -/
def compute_uniform (elapsedNanos : Nat) (extent : Extent) : UniformData :=
  { world := MatExpr.from_angle_y (rotation_angle elapsedNanos)
    view := view_matrix
    proj := MatExpr.perspective (1 / 2)
      ((extent.width : ℚ) / (extent.height : ℚ)) (1 / 100) 100 }

/-! ### Renderer state and the render state machine -/

/-- The mutable state of `PoritzCraftRenderer` that `render` reads and
writes (renderer.rs lines 50-71).  Generation counters witness which
build of the swapchain and of the pipeline the state holds: a rebuild
increments the swapchain generation and stamps the pipeline with the same
number, so equal generations mean the two were built together. -/
structure RState where
  swapchainGen : Nat
  swapchainExtent : Extent
  imageCount : Nat
  pipelineGen : Nat
  pipelineViewport : Extent
  fbCount : Nat
  fbColorExtent : Extent
  fbDepthExtent : Extent
  recreate_swapchain : Bool
  previous_frame_end : Option Signal
deriving DecidableEq, Repr

/-- A command recorded into the frame's command buffer, one constructor
per builder call in renderer.rs lines 572-611. -/
inductive Cmd
  | begin_render_pass (fbIndex : Nat) (colorExtent depthExtent : Extent)
      (clearColor : ℚ × ℚ × ℚ × ℚ) (clearDepth : ℚ)
  | bind_pipeline_graphics (gen : Nat) (viewport : Extent)
  | bind_descriptor_sets (setIndex : Nat)
  | bind_vertex_buffers
  | bind_index_buffer
  | draw_indexed (indexCount instanceCount firstIndex vertexOffset firstInstance : Nat)
  | end_render_pass
deriving DecidableEq, Repr

/-- An observable step taken during one `render` call, in call order. -/
inductive Event
  | rebuild (extent : Extent)
  | acquire_attempt
  | uniform_write (u : UniformData)
  | gpu_record (cmds : List Cmd)
  | gpu_submit (imageNum : Nat)
  | log_flush_error
deriving DecidableEq, Repr

/-- Outcome of one `render` call: a normal return with the successor
state and the event trace, or a process abort through one of the three
`panic`-or-`unwrap` sites in the source. -/
inductive FatalCause
  | previousFrameEndNone
  | recreateFailed
  | acquireFailed
deriving DecidableEq, Repr

inductive RenderOutcome
  | ok (s : RState) (trace : List Event)
  | fatal (c : FatalCause)
deriving DecidableEq, Repr

/-- The swapchain rebuild step (renderer.rs lines 484-503): the swapchain
is replaced, then `window_size_dependent_setup` rebuilds pipeline and
framebuffers from the new images, then the flag is cleared. -/
def rebuild_state (s : RState) (extent : Extent) (imageCount : Nat) : RState :=
  let images : SwapchainImages := ⟨imageCount, extent⟩
  let pf := window_size_dependent_setup images
  { s with
    swapchainGen := s.swapchainGen + 1
    swapchainExtent := extent
    imageCount := imageCount
    pipelineGen := s.swapchainGen + 1
    pipelineViewport := pf.1.viewport
    fbCount := pf.2.count
    fbColorExtent := pf.2.colorExtent
    fbDepthExtent := pf.2.depthExtent
    recreate_swapchain := false }

/-- The command buffer recorded for the acquired image (renderer.rs lines
566-611): one render pass with clear color (0,0,1,1) and clear depth 1,
the pipeline, two descriptor sets, the four vertex streams, the index
buffer, one indexed instanced draw over the full index and instance
counts, and the end of the pass. -/
def record_commands (s : RState) (imageNum : Nat) : List Cmd :=
  [Cmd.begin_render_pass imageNum s.fbColorExtent s.fbDepthExtent (0, 0, 1, 1) 1,
   Cmd.bind_pipeline_graphics s.pipelineGen s.pipelineViewport,
   Cmd.bind_descriptor_sets 0,
   Cmd.bind_descriptor_sets 1,
   Cmd.bind_vertex_buffers,
   Cmd.bind_index_buffer,
   Cmd.draw_indexed indices.length instances.length 0 0 0,
   Cmd.end_render_pass]

/-- The acquire-and-onward tail of `render` (renderer.rs lines 506-637),
entered after the conditional rebuild with the state `s1`, the previous
frame's completion signal `prev`, and the trace `tr` accumulated so
far. -/
def render_from_acquire (s1 : RState) (prev : Signal) (env : Env)
    (tr : List Event) : RenderOutcome :=
  match env.acquire with
  | AcquireResult.outOfDate =>
      RenderOutcome.ok { s1 with recreate_swapchain := true }
        (tr ++ [Event.acquire_attempt])
  | AcquireResult.otherError => RenderOutcome.fatal FatalCause.acquireFailed
  | AcquireResult.ok imageNum suboptimal =>
      let s2 := if suboptimal then { s1 with recreate_swapchain := true } else s1
      let u := compute_uniform env.elapsedNanos s2.swapchainExtent
      let cmds := record_commands s2 imageNum
      match env.flush with
      | FlushResult.ok =>
          RenderOutcome.ok
            { s2 with previous_frame_end := some (Signal.fenced prev imageNum) }
            (tr ++ [Event.acquire_attempt, Event.uniform_write u,
                    Event.gpu_record cmds, Event.gpu_submit imageNum])
      | FlushResult.outOfDate =>
          RenderOutcome.ok
            { s2 with recreate_swapchain := true,
                      previous_frame_end := some Signal.now }
            (tr ++ [Event.acquire_attempt, Event.uniform_write u,
                    Event.gpu_record cmds, Event.gpu_submit imageNum])
      | FlushResult.otherError =>
          RenderOutcome.ok
            { s2 with previous_frame_end := some Signal.now }
            (tr ++ [Event.acquire_attempt, Event.uniform_write u,
                    Event.gpu_record cmds, Event.gpu_submit imageNum,
                    Event.log_flush_error])

/-- Mirrors `PoritzCraftRenderer::render` (renderer.rs lines 480-637):
unwrap and clean the previous frame end, conditionally rebuild the
swapchain at the current window extent, acquire an image, compute the
uniform record, record and submit the command buffer, and store the new
in-flight signal according to the flush outcome. -/
def render (s : RState) (env : Env) : RenderOutcome :=
  match s.previous_frame_end with
  | none => RenderOutcome.fatal FatalCause.previousFrameEndNone
  | some prev =>
      if s.recreate_swapchain then
        match env.recreate with
        | RecreateResult.imageExtentNotSupported => RenderOutcome.ok s []
        | RecreateResult.otherError => RenderOutcome.fatal FatalCause.recreateFailed
        | RecreateResult.ok newCount =>
            render_from_acquire (rebuild_state s env.windowExtent newCount) prev env
              [Event.rebuild env.windowExtent]
      else
        render_from_acquire s prev env []

/-- Mirrors the resize notification (src/window.rs lines 36-41 and
spec section 6): external code only sets the stale flag. -/
def notify_resized (s : RState) : RState :=
  { s with recreate_swapchain := true }

/-- The renderer state produced by `PoritzCraftRenderer::new`
(renderer.rs lines 451-477) for an initial surface of extent `e0` with
`n0` swapchain images: pipeline and framebuffers from
`window_size_dependent_setup`, the texture-upload future stored as the
previous frame end, and the stale flag clear. -/
def initState (e0 : Extent) (n0 : Nat) : RState :=
  let images : SwapchainImages := ⟨n0, e0⟩
  let pf := window_size_dependent_setup images
  { swapchainGen := 0
    swapchainExtent := e0
    imageCount := n0
    pipelineGen := 0
    pipelineViewport := pf.1.viewport
    fbCount := pf.2.count
    fbColorExtent := pf.2.colorExtent
    fbDepthExtent := pf.2.depthExtent
    recreate_swapchain := false
    previous_frame_end := some Signal.tex_upload }

/-- States reachable from construction by any interleaving of resize
notifications and render calls under arbitrary environments. -/
inductive Reachable (e0 : Extent) (n0 : Nat) : RState → Prop
  | init : Reachable e0 n0 (initState e0 n0)
  | resized {s : RState} : Reachable e0 n0 s → Reachable e0 n0 (notify_resized s)
  | rendered {s s1 : RState} {env : Env} {tr : List Event} :
      Reachable e0 n0 s → render s env = RenderOutcome.ok s1 tr →
      Reachable e0 n0 s1

/-! ### Outcome characterization lemmas -/

/-- The standard event tail appended by a frame that reaches submission,
given the uniform record, the recorded commands and the acquired image. -/
def submit_tail (u : UniformData) (cmds : List Cmd) (i : Nat) : List Event :=
  [Event.acquire_attempt, Event.uniform_write u,
   Event.gpu_record cmds, Event.gpu_submit i]

/-- Exhaustive characterization of the normal outcomes of
`render_from_acquire`. -/
theorem render_from_acquire_cases {s0 s1 : RState} {prev : Signal} {env : Env}
    {tr0 tr : List Event}
    (h : render_from_acquire s0 prev env tr0 = RenderOutcome.ok s1 tr) :
    (env.acquire = AcquireResult.outOfDate ∧
       s1 = { s0 with recreate_swapchain := true } ∧
       tr = tr0 ++ [Event.acquire_attempt]) ∨
    (∃ i sub,
      env.acquire = AcquireResult.ok i sub ∧
      ∃ s2, s2 = (if sub then { s0 with recreate_swapchain := true } else s0) ∧
      ∃ u cmds, u = compute_uniform env.elapsedNanos s2.swapchainExtent ∧
        cmds = record_commands s2 i ∧
        ((env.flush = FlushResult.ok ∧
            s1 = { s2 with previous_frame_end := some (Signal.fenced prev i) } ∧
            tr = tr0 ++ submit_tail u cmds i) ∨
         (env.flush = FlushResult.outOfDate ∧
            s1 = { s2 with recreate_swapchain := true,
                           previous_frame_end := some Signal.now } ∧
            tr = tr0 ++ submit_tail u cmds i) ∨
         (env.flush = FlushResult.otherError ∧
            s1 = { s2 with previous_frame_end := some Signal.now } ∧
            tr = tr0 ++ (submit_tail u cmds i ++ [Event.log_flush_error])))) := by
  cases hacq : env.acquire with
  | outOfDate =>
      left
      unfold render_from_acquire at h
      rw [hacq] at h
      simp only [RenderOutcome.ok.injEq] at h
      exact ⟨rfl, h.1.symm, h.2.symm⟩
  | otherError =>
      unfold render_from_acquire at h
      rw [hacq] at h
      simp at h
  | ok i sub =>
      right
      refine ⟨i, sub, rfl, if sub then { s0 with recreate_swapchain := true } else s0,
        rfl, compute_uniform env.elapsedNanos
          (if sub then { s0 with recreate_swapchain := true } else s0).swapchainExtent,
        record_commands (if sub then { s0 with recreate_swapchain := true } else s0) i,
        rfl, rfl, ?_⟩
      unfold render_from_acquire at h
      rw [hacq] at h
      cases hfl : env.flush with
      | ok =>
          rw [hfl] at h
          simp only [RenderOutcome.ok.injEq] at h
          exact Or.inl ⟨rfl, h.1.symm, by rw [← h.2]; simp [submit_tail]⟩
      | outOfDate =>
          rw [hfl] at h
          simp only [RenderOutcome.ok.injEq] at h
          exact Or.inr (Or.inl ⟨rfl, h.1.symm, by rw [← h.2]; simp [submit_tail]⟩)
      | otherError =>
          rw [hfl] at h
          simp only [RenderOutcome.ok.injEq] at h
          exact Or.inr (Or.inr ⟨rfl, h.1.symm, by rw [← h.2]; simp [submit_tail]⟩)

/-- Exhaustive characterization of the normal outcomes of `render`: the
previous frame end was `some`, and either the call early-returned from an
unsupported-extent rebuild, or it reached acquisition after an optional
single rebuild. -/
theorem render_ok_cases {s s1 : RState} {env : Env} {tr : List Event}
    (h : render s env = RenderOutcome.ok s1 tr) :
    ∃ prev, s.previous_frame_end = some prev ∧
    ((s.recreate_swapchain = true ∧
        env.recreate = RecreateResult.imageExtentNotSupported ∧
        s1 = s ∧ tr = []) ∨
     (∃ s0 tr0,
        ((s.recreate_swapchain = false ∧ s0 = s ∧ tr0 = ([] : List Event)) ∨
         (s.recreate_swapchain = true ∧
          ∃ n, env.recreate = RecreateResult.ok n ∧
            s0 = rebuild_state s env.windowExtent n ∧
            tr0 = [Event.rebuild env.windowExtent])) ∧
        render_from_acquire s0 prev env tr0 = RenderOutcome.ok s1 tr)) := by
  cases hprev : s.previous_frame_end with
  | none => simp [render, hprev] at h
  | some prev =>
      refine ⟨prev, rfl, ?_⟩
      cases hflag : s.recreate_swapchain with
      | false =>
          right
          refine ⟨s, [], Or.inl ⟨rfl, rfl, rfl⟩, ?_⟩
          unfold render at h
          rw [hprev, hflag] at h
          simpa using h
      | true =>
          cases hrec : env.recreate with
          | imageExtentNotSupported =>
              left
              unfold render at h
              rw [hprev, hflag, hrec] at h
              simp only [if_true, RenderOutcome.ok.injEq] at h
              exact ⟨rfl, rfl, h.1.symm, h.2.symm⟩
          | otherError =>
              unfold render at h
              rw [hprev, hflag, hrec] at h
              simp at h
          | ok n =>
              right
              refine ⟨rebuild_state s env.windowExtent n,
                [Event.rebuild env.windowExtent],
                Or.inr ⟨rfl, n, rfl, rfl, rfl⟩, ?_⟩
              unfold render at h
              rw [hprev, hflag, hrec] at h
              simpa using h

/-- A normal `render` return always leaves a `some` previous frame end. -/
theorem render_ok_prev_some {s s1 : RState} {env : Env} {tr : List Event}
    (h : render s env = RenderOutcome.ok s1 tr) :
    s1.previous_frame_end.isSome := by
  obtain ⟨prev, hprev, hcase⟩ := render_ok_cases h
  rcases hcase with ⟨_, _, hs1, _⟩ | ⟨s0, tr0, hstart, hrfa⟩
  · rw [hs1, hprev]; rfl
  · have hs0prev : s0.previous_frame_end = some prev := by
      rcases hstart with ⟨_, hs0, _⟩ | ⟨_, n, _, hs0, _⟩
      · rw [hs0]; exact hprev
      · rw [hs0]; exact hprev
    rcases render_from_acquire_cases hrfa with ⟨_, hs1, _⟩ |
      ⟨i, sub, _, s2, hs2, u, cmds, _, _, hout⟩
    · rw [hs1]
      show s0.previous_frame_end.isSome
      rw [hs0prev]; rfl
    · rcases hout with ⟨_, hs1, _⟩ | ⟨_, hs1, _⟩ | ⟨_, hs1, _⟩ <;> rw [hs1] <;> rfl

/-- Every reachable state carries a `some` previous frame end. -/
theorem reachable_prev_some {e0 : Extent} {n0 : Nat} {s : RState}
    (hr : Reachable e0 n0 s) : s.previous_frame_end.isSome := by
  induction hr with
  | init => rfl
  | resized hr ih => exact ih
  | rendered hr hstep ih => exact render_ok_prev_some hstep

/-- The only fatal outcome of the acquire-and-onward tail is a failed
acquisition. -/
theorem render_from_acquire_fatal {s0 : RState} {prev : Signal} {env : Env}
    {tr0 : List Event} {c : FatalCause}
    (h : render_from_acquire s0 prev env tr0 = RenderOutcome.fatal c) :
    c = FatalCause.acquireFailed ∧ env.acquire = AcquireResult.otherError := by
  cases hacq : env.acquire with
  | outOfDate =>
      unfold render_from_acquire at h
      rw [hacq] at h
      simp at h
  | otherError =>
      unfold render_from_acquire at h
      rw [hacq] at h
      simp only [RenderOutcome.fatal.injEq] at h
      exact ⟨h.symm, rfl⟩
  | ok i sub =>
      unfold render_from_acquire at h
      rw [hacq] at h
      cases hfl : env.flush <;> rw [hfl] at h <;> simp at h

/-- Exhaustive characterization of the process-aborting outcomes of
`render`: a missing previous frame end, a failed swapchain recreation, or
a failed image acquisition. -/
theorem render_fatal_cases {s : RState} {env : Env} {c : FatalCause}
    (h : render s env = RenderOutcome.fatal c) :
    (c = FatalCause.previousFrameEndNone ∧ s.previous_frame_end = none) ∨
    (c = FatalCause.recreateFailed ∧ s.recreate_swapchain = true ∧
      env.recreate = RecreateResult.otherError) ∨
    (c = FatalCause.acquireFailed ∧ env.acquire = AcquireResult.otherError) := by
  cases hprev : s.previous_frame_end with
  | none =>
      unfold render at h
      rw [hprev] at h
      simp only [RenderOutcome.fatal.injEq] at h
      exact Or.inl ⟨h.symm, rfl⟩
  | some prev =>
      unfold render at h
      rw [hprev] at h
      cases hflag : s.recreate_swapchain with
      | false =>
          rw [hflag] at h
          simp only [Bool.false_eq_true, if_false] at h
          exact Or.inr (Or.inr (render_from_acquire_fatal h))
      | true =>
          rw [hflag] at h
          simp only [if_true] at h
          cases hrec : env.recreate with
          | imageExtentNotSupported => rw [hrec] at h; simp at h
          | otherError =>
              rw [hrec] at h
              simp only [RenderOutcome.fatal.injEq] at h
              exact Or.inr (Or.inl ⟨h.symm, rfl, rfl⟩)
          | ok n =>
              rw [hrec] at h
              exact Or.inr (Or.inr (render_from_acquire_fatal h))

/-- When the previous frame end is present and neither recreation nor
acquisition reports the explicitly-fatal error, `render` returns
normally. -/
theorem render_ok_total {s : RState} {env : Env}
    (h1 : s.previous_frame_end.isSome)
    (h2 : env.recreate ≠ RecreateResult.otherError)
    (h3 : env.acquire ≠ AcquireResult.otherError) :
    ∃ s1 tr, render s env = RenderOutcome.ok s1 tr := by
  cases hout : render s env with
  | ok s1 tr => exact ⟨s1, tr, rfl⟩
  | fatal c =>
      rcases render_fatal_cases hout with ⟨_, hn⟩ | ⟨_, _, hrec⟩ | ⟨_, hacq⟩
      · rw [hn] at h1; simp at h1
      · exact absurd hrec h2
      · exact absurd hacq h3

/-- A call that never reaches submission leaves the previous frame end
untouched. -/
theorem render_no_submit_prev_untouched {s s1 : RState} {env : Env}
    {tr : List Event}
    (h : render s env = RenderOutcome.ok s1 tr)
    (hns : ∀ i, Event.gpu_submit i ∉ tr) :
    s1.previous_frame_end = s.previous_frame_end := by
  obtain ⟨prev, hprev, hcase⟩ := render_ok_cases h
  rcases hcase with ⟨_, _, hs1, _⟩ | ⟨s0, tr0, hstart, hrfa⟩
  · rw [hs1]
  · have hs0 : s0.previous_frame_end = s.previous_frame_end := by
      rcases hstart with ⟨_, hs0, _⟩ | ⟨_, n, _, hs0, _⟩ <;> rw [hs0] <;> rfl
    rcases render_from_acquire_cases hrfa with ⟨_, hs1, _⟩ |
      ⟨i, sub, _, s2, _, u, cmds, _, _, hout⟩
    · rw [hs1]; exact hs0
    · exfalso
      rcases hout with ⟨_, _, htr⟩ | ⟨_, _, htr⟩ | ⟨_, _, htr⟩ <;>
        exact hns i (by rw [htr]; simp [submit_tail])

/-- Every command list recorded by a call coincides with
`record_commands` of the final state at the acquired image index (the
submission-outcome branches only change the stale flag and the in-flight
signal, which the recorded commands do not mention). -/
theorem gpu_record_shape {s s1 : RState} {env : Env} {tr : List Event}
    {cmds : List Cmd}
    (h : render s env = RenderOutcome.ok s1 tr)
    (hmem : Event.gpu_record cmds ∈ tr) :
    ∃ i, cmds = record_commands s1 i ∧ Event.gpu_submit i ∈ tr := by
  obtain ⟨prev, hprev, hcase⟩ := render_ok_cases h
  rcases hcase with ⟨_, _, _, htr⟩ | ⟨s0, tr0, hstart, hrfa⟩
  · rw [htr] at hmem; simp at hmem
  · rcases render_from_acquire_cases hrfa with ⟨_, _, htr⟩ |
      ⟨i, sub, _, s2, hs2, u, cmdsx, hu, hcmds, hout⟩
    · exfalso
      rw [htr] at hmem
      rcases hstart with ⟨_, _, ht0⟩ | ⟨_, n, _, _, ht0⟩ <;>
        rw [ht0] at hmem <;> simp at hmem
    · rcases hout with ⟨_, hs1, htr⟩ | ⟨_, hs1, htr⟩ | ⟨_, hs1, htr⟩ <;>
      · rw [htr] at hmem
        have hmem2 : cmds = cmdsx := by
          rcases hstart with ⟨_, _, ht0⟩ | ⟨_, n, _, _, ht0⟩ <;>
            rw [ht0] at hmem <;> simp [submit_tail] at hmem <;> exact hmem
        refine ⟨i, ?_, by rw [htr]; simp [submit_tail]⟩
        rw [hmem2, hcmds, hs1]
        all_goals rfl

/-- Every uniform record written by a call is `compute_uniform` of the
elapsed time and the swapchain extent the call ended with; and a rebuild
in the same call forces that extent to be the rebuilt one. -/
theorem uniform_shape {s s1 : RState} {env : Env} {tr : List Event}
    {u : UniformData}
    (h : render s env = RenderOutcome.ok s1 tr)
    (hmem : Event.uniform_write u ∈ tr) :
    u = compute_uniform env.elapsedNanos s1.swapchainExtent ∧
    ∀ e, Event.rebuild e ∈ tr → s1.swapchainExtent = e := by
  obtain ⟨prev, hprev, hcase⟩ := render_ok_cases h
  rcases hcase with ⟨_, _, _, htr⟩ | ⟨s0, tr0, hstart, hrfa⟩
  · rw [htr] at hmem; simp at hmem
  · rcases render_from_acquire_cases hrfa with ⟨_, _, htr⟩ |
      ⟨i, sub, _, s2, hs2, u2, cmdsx, hu2, hcmds, hout⟩
    · exfalso
      rw [htr] at hmem
      rcases hstart with ⟨_, _, ht0⟩ | ⟨_, n, _, _, ht0⟩ <;>
        rw [ht0] at hmem <;> simp at hmem
    · rcases hout with ⟨_, hs1, htr⟩ | ⟨_, hs1, htr⟩ | ⟨_, hs1, htr⟩ <;>
      · rw [htr] at hmem
        have hmemu : u = u2 := by
          rcases hstart with ⟨_, _, ht0⟩ | ⟨_, n, _, _, ht0⟩ <;>
            rw [ht0] at hmem <;> simp [submit_tail] at hmem <;> exact hmem
        constructor
        · rw [hmemu, hu2, hs1]
        · intro e hreb
          rw [htr] at hreb
          rcases hstart with ⟨_, hs0, ht0⟩ | ⟨_, n, _, hs0, ht0⟩
          · exfalso
            rw [ht0] at hreb
            simp [submit_tail] at hreb
          · rw [ht0] at hreb
            simp [submit_tail] at hreb
            rw [hs1, hs2]
            cases sub <;> · rw [hs0, hreb]; rfl

/-! ### The rotation angle -/

/-- The seconds-plus-subsecond split computes exactly the elapsed
nanoseconds divided by one billion. -/
theorem rotation_angle_eq (n : Nat) :
    rotation_angle n = (n : ℚ) / 1000000000 := by
  unfold rotation_angle
  have h : n / 1000000000 * 1000000000 + n % 1000000000 = n := by omega
  field_simp
  exact_mod_cast h

/-- The rotation angle is monotone in the elapsed time. -/
theorem rotation_angle_mono {n1 n2 : Nat} (h : n1 ≤ n2) :
    rotation_angle n1 ≤ rotation_angle n2 := by
  rw [rotation_angle_eq, rotation_angle_eq]
  gcongr

/-! ### The built-together invariant -/

/-- The invariant relating the surface, pipeline and framebuffers held by
the renderer: the pipeline carries the same build generation as the
swapchain (they were built in the same step), its viewport matches the
swapchain extent, there is one framebuffer per color image, and color and
depth attachments share the swapchain extent. -/
def Inv (s : RState) : Prop :=
  s.pipelineGen = s.swapchainGen ∧
  s.pipelineViewport = s.swapchainExtent ∧
  s.fbCount = s.imageCount ∧
  s.fbColorExtent = s.swapchainExtent ∧
  s.fbDepthExtent = s.fbColorExtent

/-- Coherence of a recorded command buffer: the pipeline bound in it has
a viewport equal to the color extent of the framebuffer the render pass
targets, and the depth attachment matches that extent. -/
def RecordCoherent (cmds : List Cmd) : Prop :=
  ∀ j ce de cc cd g v,
    Cmd.begin_render_pass j ce de cc cd ∈ cmds →
    Cmd.bind_pipeline_graphics g v ∈ cmds →
    v = ce ∧ de = ce

theorem inv_initState (e0 : Extent) (n0 : Nat) : Inv (initState e0 n0) :=
  ⟨rfl, rfl, rfl, rfl, rfl⟩

theorem inv_rebuild_state (s : RState) (e : Extent) (n : Nat) :
    Inv (rebuild_state s e n) :=
  ⟨rfl, rfl, rfl, rfl, rfl⟩

/-- One `render` call preserves the built-together invariant. -/
theorem inv_render {s s1 : RState} {env : Env} {tr : List Event}
    (hInv : Inv s) (h : render s env = RenderOutcome.ok s1 tr) : Inv s1 := by
  obtain ⟨prev, hprev, hcase⟩ := render_ok_cases h
  rcases hcase with ⟨_, _, hs1, _⟩ | ⟨s0, tr0, hstart, hrfa⟩
  · rw [hs1]; exact hInv
  · have hInv0 : Inv s0 := by
      rcases hstart with ⟨_, hs0, _⟩ | ⟨_, n, _, hs0, _⟩
      · rw [hs0]; exact hInv
      · rw [hs0]; exact inv_rebuild_state s env.windowExtent n
    rcases render_from_acquire_cases hrfa with ⟨_, hs1, _⟩ |
      ⟨i, sub, _, s2, hs2, u, cmds, _, _, hout⟩
    · rw [hs1]; exact hInv0
    · have hInv2 : Inv s2 := by
        rw [hs2]
        cases sub
        · exact hInv0
        · exact hInv0
      rcases hout with ⟨_, hs1, _⟩ | ⟨_, hs1, _⟩ | ⟨_, hs1, _⟩ <;>
        (rw [hs1]; exact hInv2)

/-- The built-together invariant holds in every reachable state. -/
theorem reachable_inv {e0 : Extent} {n0 : Nat} {s : RState}
    (hr : Reachable e0 n0 s) : Inv s := by
  induction hr with
  | init => exact inv_initState e0 n0
  | resized hr ih => exact ih
  | rendered hr hstep ih => exact inv_render ih hstep

/-- A command buffer recorded from a state whose viewport and depth extent
agree with the framebuffer color extent is coherent. -/
theorem record_coherent_of_fields {x : RState}
    (hv : x.pipelineViewport = x.fbColorExtent)
    (hd : x.fbDepthExtent = x.fbColorExtent) (i : Nat) :
    RecordCoherent (record_commands x i) := by
  intro j ce de cc cd g v hb hp
  simp only [record_commands, List.mem_cons, List.not_mem_nil, or_false,
    reduceCtorEq, false_or, or_false] at hb hp
  injection hb with h1 h2 h3 h4 h5
  injection hp with h6 h7
  subst h2
  subst h3
  subst h7
  exact ⟨hv, hd⟩

/-- Recognizer for the draw command. -/
def Cmd.isDrawCall : Cmd → Bool
  | Cmd.draw_indexed _ _ _ _ _ => true
  | _ => false

/-! ### Concrete fixtures for witnesses -/

def demo_extent : Extent := ⟨800, 600⟩

def demo_state : RState := initState demo_extent 3

def env_ok : Env :=
  ⟨⟨1024, 768⟩, RecreateResult.ok 4, AcquireResult.ok 1 false, FlushResult.ok,
   2000000000⟩

def env_flush_err : Env :=
  ⟨demo_extent, RecreateResult.ok 3, AcquireResult.ok 0 false,
   FlushResult.otherError, 0⟩

def env_flush_ood : Env :=
  ⟨demo_extent, RecreateResult.ok 3, AcquireResult.ok 0 false,
   FlushResult.outOfDate, 0⟩

def env_zero : Env :=
  ⟨⟨0, 0⟩, RecreateResult.imageExtentNotSupported, AcquireResult.ok 0 false,
   FlushResult.ok, 0⟩

def env_acq_ood : Env :=
  ⟨demo_extent, RecreateResult.ok 3, AcquireResult.outOfDate, FlushResult.ok, 0⟩

def env_acq_err : Env :=
  ⟨demo_extent, RecreateResult.ok 3, AcquireResult.otherError, FlushResult.ok, 0⟩

/-! ### The claims -/

/-- C1: when the stale flag is set and the reported window extent is zero
in either dimension, `render` returns with the state completely unchanged
(so no new presentation surface is created and the flag is not cleared)
and an empty event trace (no GPU calls are recorded).  The `EnvWf`
hypothesis is the backend contract that a zero-area extent is rejected as
unsupported. -/
theorem c1_zero_extent_skips_frame (s : RState) (env : Env)
    (hstale : s.recreate_swapchain = true)
    (hsome : s.previous_frame_end.isSome)
    (hwf : EnvWf env)
    (hzero : env.windowExtent.width = 0 ∨ env.windowExtent.height = 0) :
    render s env = RenderOutcome.ok s [] := by
  obtain ⟨prev, hprev⟩ := Option.isSome_iff_exists.mp hsome
  unfold render
  rw [hprev, hstale, hwf hzero]
  simp

theorem c1_zero_extent_skips_frame_witness :
    render (notify_resized demo_state) env_zero =
      RenderOutcome.ok (notify_resized demo_state) [] :=
  c1_zero_extent_skips_frame _ _ rfl rfl (fun _ => rfl) (Or.inl rfl)

/-- C4 counterexample: an image-acquisition error other than out-of-date
arises inside `render` at runtime and aborts the process (the `panic`
at renderer.rs line 513), so it is not contained within the call. -/
theorem c4_counterexample_acquire_error_aborts :
    render demo_state env_acq_err =
      RenderOutcome.fatal FatalCause.acquireFailed := rfl

/-- C4 amended: the process is halted only by the three explicitly fatal
conditions (missing previous frame end, a swapchain recreation failure
other than unsupported extent, an image acquisition failure other than
out of date); in every other circumstance, in particular for every
submission and presentation error, `render` returns normally. -/
theorem c4_error_containment_amended (s : RState) (env : Env) :
    (∀ c, render s env = RenderOutcome.fatal c →
      (c = FatalCause.previousFrameEndNone ∧ s.previous_frame_end = none) ∨
      (c = FatalCause.recreateFailed ∧ s.recreate_swapchain = true ∧
        env.recreate = RecreateResult.otherError) ∨
      (c = FatalCause.acquireFailed ∧ env.acquire = AcquireResult.otherError)) ∧
    (s.previous_frame_end.isSome → env.recreate ≠ RecreateResult.otherError →
      env.acquire ≠ AcquireResult.otherError →
      ∃ s1 tr, render s env = RenderOutcome.ok s1 tr) :=
  ⟨fun _ h => render_fatal_cases h,
   fun h1 h2 h3 => render_ok_total h1 h2 h3⟩

theorem c4_error_containment_amended_witness :
    ∃ s1 tr, render demo_state env_flush_err = RenderOutcome.ok s1 tr :=
  (c4_error_containment_amended demo_state env_flush_err).2 rfl
    (by simp [env_flush_err]) (by simp [env_flush_err])

/-- C10: every index in the grid-instanced index buffer is strictly below
24, the common length of the vertex, normal and texture-coordinate
buffers (8 corners repeated 3 times); the table has 18 entries and equals
exactly the front, left and top face rows of the full 36-entry cube table
of the single-instance variant. -/
theorem c10_index_buffer_in_range :
    (∀ i ∈ indices, i < 24) ∧
    vertices.length = 24 ∧
    normals.length = 24 ∧
    texture_coordinates.length = 24 ∧
    cubeCorners.length = 8 ∧
    indices.length = 18 ∧
    indices_main.length = 36 ∧
    indices = indices_main.take 6 ++
      ((indices_main.drop 12).take 6 ++ (indices_main.drop 24).take 6) := by
  decide

theorem c10_index_buffer_in_range_witness :
    (2 : Nat) ∈ indices ∧ (2 : Nat) < 24 :=
  ⟨by decide, c10_index_buffer_in_range.1 2 (by decide)⟩

/-- C9: in every reachable state the previous frame end is `some` (it is
so at construction and every call keeps it so), `render` can never abort
through the `unwrap` of `previous_frame_end`, every normal return stores
a `some` value again, and a call that never reaches submission leaves the
field untouched. -/
theorem c9_previous_frame_end_always_some (e0 : Extent) (n0 : Nat)
    (s : RState) (hr : Reachable e0 n0 s) :
    s.previous_frame_end.isSome ∧
    (∀ env, render s env ≠ RenderOutcome.fatal FatalCause.previousFrameEndNone) ∧
    (∀ env s1 tr, render s env = RenderOutcome.ok s1 tr →
      s1.previous_frame_end.isSome) ∧
    (∀ env s1 tr, render s env = RenderOutcome.ok s1 tr →
      (∀ i, Event.gpu_submit i ∉ tr) →
      s1.previous_frame_end = s.previous_frame_end) := by
  refine ⟨reachable_prev_some hr, ?_,
    fun env s1 tr h => render_ok_prev_some h,
    fun env s1 tr h hns => render_no_submit_prev_untouched h hns⟩
  intro env hcontra
  rcases render_fatal_cases hcontra with ⟨_, hn⟩ | ⟨hc, _⟩ | ⟨hc, _⟩
  · have hsome := reachable_prev_some hr
    rw [hn] at hsome
    simp at hsome
  · simp at hc
  · simp at hc

theorem c9_previous_frame_end_always_some_witness :
    demo_state.previous_frame_end.isSome ∧
    render demo_state env_acq_ood ≠
      RenderOutcome.fatal FatalCause.previousFrameEndNone :=
  ⟨(c9_previous_frame_end_always_some demo_extent 3 demo_state Reachable.init).1,
   (c9_previous_frame_end_always_some demo_extent 3 demo_state
      Reachable.init).2.1 env_acq_ood⟩

/-- C2: a call whose acquisition reports out of date sets the stale flag
and returns having recorded and submitted nothing; and the immediately
following call, given that the backend accepts the recreation and does
not hit the fatal acquisition error, performs exactly one rebuild of the
surface-and-pipeline pair and only then attempts acquisition again. -/
theorem c2_out_of_date_defers_single_rebuild
    (s s1 : RState) (env1 env2 : Env) (tr1 : List Event) (n2 : Nat)
    (h1 : render s env1 = RenderOutcome.ok s1 tr1)
    (hood : env1.acquire = AcquireResult.outOfDate)
    (hacq : Event.acquire_attempt ∈ tr1)
    (hrec2 : env2.recreate = RecreateResult.ok n2)
    (hacq2 : env2.acquire ≠ AcquireResult.otherError) :
    s1.recreate_swapchain = true ∧
    (∀ cmds, Event.gpu_record cmds ∉ tr1) ∧
    (∀ i, Event.gpu_submit i ∉ tr1) ∧
    (∃ s2 rest, render s1 env2 =
        RenderOutcome.ok s2 (Event.rebuild env2.windowExtent ::
          Event.acquire_attempt :: rest) ∧
      ∀ e, Event.rebuild e ∉ rest) := by
  obtain ⟨prev0, hprev0, hcase⟩ := render_ok_cases h1
  rcases hcase with ⟨_, _, _, htr1⟩ | ⟨s0, tr0, hstart, hrfa⟩
  · rw [htr1] at hacq; simp at hacq
  rcases render_from_acquire_cases hrfa with ⟨_, hs1, htr1⟩ |
    ⟨i, sub, hacqeq, _⟩
  swap
  · rw [hood] at hacqeq; simp at hacqeq
  have hflag1 : s1.recreate_swapchain = true := by rw [hs1]
  have hrecmem : ∀ cmds, Event.gpu_record cmds ∉ tr1 := by
    intro cmds hmem
    rw [htr1] at hmem
    rcases hstart with ⟨_, _, ht0⟩ | ⟨_, n, _, _, ht0⟩ <;>
      rw [ht0] at hmem <;> simp at hmem
  have hsubmem : ∀ i, Event.gpu_submit i ∉ tr1 := by
    intro i hmem
    rw [htr1] at hmem
    rcases hstart with ⟨_, _, ht0⟩ | ⟨_, n, _, _, ht0⟩ <;>
      rw [ht0] at hmem <;> simp at hmem
  refine ⟨hflag1, hrecmem, hsubmem, ?_⟩
  obtain ⟨prev1, hprev1⟩ :=
    Option.isSome_iff_exists.mp (render_ok_prev_some h1)
  have hrender2 : render s1 env2 =
      render_from_acquire (rebuild_state s1 env2.windowExtent n2) prev1 env2
        [Event.rebuild env2.windowExtent] := by
    unfold render
    rw [hprev1, hflag1, hrec2]
    simp
  cases hout : render s1 env2 with
  | fatal c =>
      exfalso
      rcases render_fatal_cases hout with ⟨_, hn⟩ | ⟨_, _, hrec⟩ | ⟨_, hacqq⟩
      · rw [hprev1] at hn; simp at hn
      · rw [hrec2] at hrec; simp at hrec
      · exact hacq2 hacqq
  | ok s2 tr2 =>
      have hrfa2 : render_from_acquire (rebuild_state s1 env2.windowExtent n2)
          prev1 env2 [Event.rebuild env2.windowExtent] =
          RenderOutcome.ok s2 tr2 := by
        rw [← hrender2]; exact hout
      rcases render_from_acquire_cases hrfa2 with ⟨_, _, htr2⟩ |
        ⟨i2, sub2, _, s2x, _, u2, cmds2, _, _, hflout⟩
      · refine ⟨s2, [], ?_, by simp⟩
        rw [htr2]
        all_goals rfl
      · rcases hflout with ⟨_, _, htr2⟩ | ⟨_, _, htr2⟩ | ⟨_, _, htr2⟩
        · refine ⟨s2, [Event.uniform_write u2, Event.gpu_record cmds2,
            Event.gpu_submit i2], ?_, by simp⟩
          rw [htr2]
          all_goals rfl
        · refine ⟨s2, [Event.uniform_write u2, Event.gpu_record cmds2,
            Event.gpu_submit i2], ?_, by simp⟩
          rw [htr2]
          all_goals rfl
        · refine ⟨s2, [Event.uniform_write u2, Event.gpu_record cmds2,
            Event.gpu_submit i2, Event.log_flush_error], ?_, by simp⟩
          rw [htr2]
          all_goals rfl

def c2_s1 : RState := { demo_state with recreate_swapchain := true }

theorem c2_out_of_date_defers_single_rebuild_witness :
    c2_s1.recreate_swapchain = true ∧
    (∀ cmds, Event.gpu_record cmds ∉ [Event.acquire_attempt]) ∧
    (∀ i, Event.gpu_submit i ∉ [Event.acquire_attempt]) ∧
    (∃ s2 rest, render c2_s1 env_ok =
        RenderOutcome.ok s2 (Event.rebuild env_ok.windowExtent ::
          Event.acquire_attempt :: rest) ∧
      ∀ e, Event.rebuild e ∉ rest) :=
  c2_out_of_date_defers_single_rebuild demo_state c2_s1 env_acq_ood env_ok
    [Event.acquire_attempt] 4 rfl rfl (by simp) rfl (by simp [env_ok])

/-- C3: whenever a call reaches submission, a flush reporting out of date
sets the stale flag and stores the trivially-complete signal, any other
flush error is logged and likewise stores the trivially-complete signal,
and a successful flush stores the fence of the submitted frame. -/
theorem c3_submission_failure_recovery
    (s s1 : RState) (env : Env) (tr : List Event) (i : Nat)
    (h : render s env = RenderOutcome.ok s1 tr)
    (hsub : Event.gpu_submit i ∈ tr) :
    (env.flush = FlushResult.outOfDate →
      s1.recreate_swapchain = true ∧ s1.previous_frame_end = some Signal.now) ∧
    (env.flush = FlushResult.otherError →
      Event.log_flush_error ∈ tr ∧ s1.previous_frame_end = some Signal.now) ∧
    (env.flush = FlushResult.ok →
      ∃ prev, s1.previous_frame_end = some (Signal.fenced prev i)) := by
  obtain ⟨prev, hprev, hcase⟩ := render_ok_cases h
  rcases hcase with ⟨_, _, _, htr⟩ | ⟨s0, tr0, hstart, hrfa⟩
  · rw [htr] at hsub; simp at hsub
  rcases render_from_acquire_cases hrfa with ⟨_, _, htr⟩ |
    ⟨i2, sub, _, s2, hs2, u, cmds, hu, hcmds, hout⟩
  · exfalso
    rw [htr] at hsub
    rcases hstart with ⟨_, _, ht0⟩ | ⟨_, n, _, _, ht0⟩ <;>
      rw [ht0] at hsub <;> simp at hsub
  have hi : i = i2 := by
    rcases hout with ⟨_, _, htr⟩ | ⟨_, _, htr⟩ | ⟨_, _, htr⟩ <;>
      rw [htr] at hsub <;>
      rcases hstart with ⟨_, _, ht0⟩ | ⟨_, n, _, _, ht0⟩ <;>
        rw [ht0] at hsub <;> simp [submit_tail] at hsub <;> exact hsub
  subst hi
  rcases hout with ⟨hfl, hs1, htr⟩ | ⟨hfl, hs1, htr⟩ | ⟨hfl, hs1, htr⟩
  · refine ⟨?_, ?_, fun _ => ⟨prev, by rw [hs1]⟩⟩
    · intro hx; rw [hfl] at hx; simp at hx
    · intro hx; rw [hfl] at hx; simp at hx
  · refine ⟨fun _ => ⟨by rw [hs1], by rw [hs1]⟩, ?_, ?_⟩
    · intro hx; rw [hfl] at hx; simp at hx
    · intro hx; rw [hfl] at hx; simp at hx
  · refine ⟨?_, fun _ => ⟨by rw [htr]; simp [submit_tail], by rw [hs1]⟩, ?_⟩
    · intro hx; rw [hfl] at hx; simp at hx
    · intro hx; rw [hfl] at hx; simp at hx

def c3_s1 : RState := { demo_state with previous_frame_end := some Signal.now }

def c3_tr1 : List Event :=
  [Event.acquire_attempt,
   Event.uniform_write (compute_uniform 0 demo_extent),
   Event.gpu_record (record_commands demo_state 0),
   Event.gpu_submit 0, Event.log_flush_error]

def c3_s2 : RState := { c3_s1 with recreate_swapchain := true }

def c3_tr2 : List Event :=
  [Event.acquire_attempt,
   Event.uniform_write (compute_uniform 0 demo_extent),
   Event.gpu_record (record_commands c3_s1 0),
   Event.gpu_submit 0]

def c3_s3 : RState :=
  { rebuild_state c3_s2 ⟨1024, 768⟩ 4 with
    previous_frame_end := some (Signal.fenced Signal.now 1) }

def c3_tr3 : List Event :=
  [Event.rebuild ⟨1024, 768⟩, Event.acquire_attempt,
   Event.uniform_write (compute_uniform 2000000000 ⟨1024, 768⟩),
   Event.gpu_record (record_commands (rebuild_state c3_s2 ⟨1024, 768⟩ 4) 1),
   Event.gpu_submit 1]

/-- Witness for C3, running the two-failures-then-success scenario: a
flush error, then an out-of-date flush, then a successful frame. -/
theorem c3_submission_failure_recovery_witness :
    (render demo_state env_flush_err = RenderOutcome.ok c3_s1 c3_tr1 ∧
      Event.log_flush_error ∈ c3_tr1 ∧
      c3_s1.previous_frame_end = some Signal.now) ∧
    (render c3_s1 env_flush_ood = RenderOutcome.ok c3_s2 c3_tr2 ∧
      c3_s2.recreate_swapchain = true ∧
      c3_s2.previous_frame_end = some Signal.now) ∧
    (render c3_s2 env_ok = RenderOutcome.ok c3_s3 c3_tr3 ∧
      ∃ prev, c3_s3.previous_frame_end = some (Signal.fenced prev 1)) := by
  refine ⟨⟨rfl, ?_⟩, ⟨rfl, ?_⟩, ⟨rfl, ?_⟩⟩
  · exact (c3_submission_failure_recovery demo_state c3_s1 env_flush_err
      c3_tr1 0 rfl (by simp [c3_tr1])).2.1 rfl
  · exact (c3_submission_failure_recovery c3_s1 c3_s2 env_flush_ood
      c3_tr2 0 rfl (by simp [c3_tr2])).1 rfl
  · exact (c3_submission_failure_recovery c3_s2 c3_s3 env_ok
      c3_tr3 1 rfl (by simp [c3_tr3])).2.2 rfl

/-- C5: in every state reachable by any interleaving of resize
notifications and render calls, the pipeline carries the same build
generation as the swapchain, its viewport matches the swapchain extent,
there is one framebuffer per color image, color and depth attachments
share the swapchain extent; and every command buffer recorded by a render
call from such a state binds a pipeline whose viewport equals the color
and depth extent of the targeted framebuffer. -/
theorem c5_surface_pipeline_built_together (e0 : Extent) (n0 : Nat)
    (s : RState) (hr : Reachable e0 n0 s) :
    Inv s ∧
    (∀ env s1 tr cmds, render s env = RenderOutcome.ok s1 tr →
      Event.gpu_record cmds ∈ tr → RecordCoherent cmds) := by
  have hInv := reachable_inv hr
  refine ⟨hInv, fun env s1 tr cmds h hmem => ?_⟩
  obtain ⟨i, hcmds, _⟩ := gpu_record_shape h hmem
  have hInv1 : Inv s1 := inv_render hInv h
  rw [hcmds]
  exact record_coherent_of_fields
    (hInv1.2.1.trans hInv1.2.2.2.1.symm) hInv1.2.2.2.2 i

theorem c5_surface_pipeline_built_together_witness :
    Inv (notify_resized demo_state) ∧
    RecordCoherent (record_commands demo_state 0) :=
  ⟨(c5_surface_pipeline_built_together demo_extent 3 (notify_resized demo_state)
      (Reachable.resized Reachable.init)).1,
   (c5_surface_pipeline_built_together demo_extent 3 demo_state
      Reachable.init).2 env_flush_err c3_s1 c3_tr1 (record_commands demo_state 0)
      rfl (by simp [c3_tr1])⟩

/-- C6: every command buffer recorded by a render call contains exactly
one draw command, and that draw is indexed and instanced over the full
index buffer length and the full instance buffer length. -/
theorem c6_single_full_draw (s s1 : RState) (env : Env) (tr : List Event)
    (cmds : List Cmd)
    (h : render s env = RenderOutcome.ok s1 tr)
    (hmem : Event.gpu_record cmds ∈ tr) :
    cmds.countP Cmd.isDrawCall = 1 ∧
    Cmd.draw_indexed indices.length instances.length 0 0 0 ∈ cmds := by
  obtain ⟨i, hcmds, _⟩ := gpu_record_shape h hmem
  rw [hcmds]
  constructor
  · simp [record_commands, List.countP_cons, Cmd.isDrawCall]
  · simp [record_commands]

theorem c6_single_full_draw_witness :
    (record_commands demo_state 0).countP Cmd.isDrawCall = 1 ∧
    Cmd.draw_indexed indices.length instances.length 0 0 0 ∈
      record_commands demo_state 0 :=
  c6_single_full_draw demo_state c3_s1 env_flush_err c3_tr1
    (record_commands demo_state 0) rfl (by simp [c3_tr1])

/-- C7: every uniform record written by a render call has a world matrix
that is a rotation about the vertical axis by the elapsed seconds, the
fixed look-at-and-scale view matrix, and a perspective projection with a
vertical field of view of half pi (90 degrees), near plane 0.01, far
plane 100, and aspect ratio equal to the swapchain extent the call ended
with — which any rebuild performed in the same call has just set, so the
ratio is never stale. -/
theorem c7_uniform_record_contents (s s1 : RState) (env : Env)
    (tr : List Event) (u : UniformData)
    (h : render s env = RenderOutcome.ok s1 tr)
    (hu : Event.uniform_write u ∈ tr) :
    u.world = MatExpr.from_angle_y (rotation_angle env.elapsedNanos) ∧
    u.view = view_matrix ∧
    u.proj = MatExpr.perspective (1 / 2)
      ((s1.swapchainExtent.width : ℚ) / (s1.swapchainExtent.height : ℚ))
      (1 / 100) 100 ∧
    (∀ e, Event.rebuild e ∈ tr → s1.swapchainExtent = e) := by
  obtain ⟨hueq, hreb⟩ := uniform_shape h hu
  rw [hueq]
  exact ⟨rfl, rfl, rfl, hreb⟩

theorem c7_uniform_record_contents_witness :
    (compute_uniform 0 demo_extent).world =
      MatExpr.from_angle_y (rotation_angle env_flush_err.elapsedNanos) ∧
    (compute_uniform 0 demo_extent).view = view_matrix ∧
    (compute_uniform 0 demo_extent).proj = MatExpr.perspective (1 / 2)
      ((c3_s1.swapchainExtent.width : ℚ) / (c3_s1.swapchainExtent.height : ℚ))
      (1 / 100) 100 ∧
    (∀ e, Event.rebuild e ∈ c3_tr1 → c3_s1.swapchainExtent = e) :=
  c7_uniform_record_contents demo_state c3_s1 env_flush_err c3_tr1
    (compute_uniform 0 demo_extent) rfl (by simp [c3_tr1])

/-- C8: the rotation angle is a monotone function of the elapsed time,
and two render calls made at the same elapsed time write uniform records
with equal world matrices regardless of the rest of their state. -/
theorem c8_rotation_monotone_and_pure :
    (∀ n1 n2 : Nat, n1 ≤ n2 → rotation_angle n1 ≤ rotation_angle n2) ∧
    (∀ (sa ra : RState) (enva : Env) (tra : List Event) (ua : UniformData)
       (sb rb : RState) (envb : Env) (trb : List Event) (ub : UniformData),
      render sa enva = RenderOutcome.ok ra tra →
      render sb envb = RenderOutcome.ok rb trb →
      Event.uniform_write ua ∈ tra →
      Event.uniform_write ub ∈ trb →
      enva.elapsedNanos = envb.elapsedNanos →
      ua.world = ub.world) := by
  constructor
  · intro n1 n2 h
    exact rotation_angle_mono h
  · intro sa ra enva tra ua sb rb envb trb ub ha hb hua hub ht
    obtain ⟨hue1, _⟩ := uniform_shape ha hua
    obtain ⟨hue2, _⟩ := uniform_shape hb hub
    rw [hue1, hue2, ht]
    rfl

def c8_env : Env :=
  ⟨⟨1024, 768⟩, RecreateResult.ok 4, AcquireResult.ok 0 false, FlushResult.ok, 0⟩

def c8_sB : RState :=
  { rebuild_state (notify_resized demo_state) ⟨1024, 768⟩ 4 with
    previous_frame_end := some (Signal.fenced Signal.tex_upload 0) }

def c8_trB : List Event :=
  [Event.rebuild ⟨1024, 768⟩, Event.acquire_attempt,
   Event.uniform_write (compute_uniform 0 ⟨1024, 768⟩),
   Event.gpu_record
     (record_commands (rebuild_state (notify_resized demo_state) ⟨1024, 768⟩ 4) 0),
   Event.gpu_submit 0]

theorem c8_rotation_monotone_and_pure_witness :
    rotation_angle 1500000000 ≤ rotation_angle 3000000000 ∧
    (compute_uniform 0 demo_extent).world =
      (compute_uniform 0 (⟨1024, 768⟩ : Extent)).world :=
  ⟨c8_rotation_monotone_and_pure.1 1500000000 3000000000 (by norm_num),
   c8_rotation_monotone_and_pure.2 demo_state c3_s1 env_flush_err c3_tr1
     (compute_uniform 0 demo_extent) (notify_resized demo_state) c8_sB c8_env
     c8_trB (compute_uniform 0 (⟨1024, 768⟩ : Extent)) rfl rfl
     (by simp [c3_tr1]) (by simp [c8_trB]) rfl⟩

end PoritzCraft
